import Mathlib

set_option linter.unusedVariables false

/-! # Shallow embedding of the price-aggregator repository

Embeds `src/aggregator_api.py` and `src/jiomart.py`.  Python/JSON values are
modelled by the inductive type `Py`; Python exceptions are modelled by
`Except Unit`; an upstream HTTP interaction is modelled by `Upstream`
(network/HTTP failure, JSON-decode failure, or a decoded body). -/

/-- Model of a Python/JSON value as the adapters manipulate it.
Python floats are modelled as rationals (no float arithmetic is performed by
the code: floats are only produced by `float(...)` parses and carried along). -/
inductive Py where
  | none : Py
  | bool : Bool → Py
  | int : Int → Py
  | float : Rat → Py
  | str : String → Py
  | list : List Py → Py
  | dict : List (String × Py) → Py

/-- Python truthiness (`if x:`). -/
def pyTruthy : Py → Bool
  | Py.none => false
  | Py.bool b => b
  | Py.int n => n != 0
  | Py.float q => q != 0
  | Py.str s => s ≠ ""
  | Py.list l => !l.isEmpty
  | Py.dict d => !d.isEmpty

/-- Python `x is None`. -/
def pyIsNone : Py → Bool
  | Py.none => true
  | _ => false

/-- Numeric value of a Python scalar, for Python's cross-type numeric
equality (`True == 1`, `1 == 1.0`). -/
def pyNumVal : Py → Option Rat
  | Py.bool b => some (if b then 1 else 0)
  | Py.int n => some (n : Rat)
  | Py.float q => some q
  | _ => Option.none

/-- Python `==`.  Exact for every comparison the embedded code performs:
each use site compares a value against a scalar (a string literal, a set
element, or a dict key), and container-vs-scalar equality is `False` in
Python.  Container-vs-container equality (never exercised here, since sets
reject unhashable members) is modelled as `False`. -/
def pyEq (x y : Py) : Bool :=
  match pyNumVal x, pyNumVal y with
  | some a, some b => a == b
  | _, _ =>
    match x, y with
    | Py.none, Py.none => true
    | Py.str a, Py.str b => a == b
    | _, _ => false

/-- Python `str(x)`.  Exact on the values the code stringifies (strings,
ints, bools, None); rendering of floats and containers is simplified (those
cases are never reached on the claim-relevant paths: filter codes and
barcodes are JSON strings or ints). -/
def pyStr : Py → String
  | Py.str s => s
  | Py.int n => toString n
  | Py.bool b => if b then "True" else "False"
  | Py.none => "None"
  | Py.float q => toString q
  | Py.list _ => "[...]"
  | Py.dict _ => "\x7b...\x7d"

/-- Value of a list of ASCII digits. -/
def digitsVal (cs : List Char) : Nat :=
  cs.foldl (fun a c => a * 10 + (c.toNat - 48)) 0

/-- Python `float(s)` on a string: optional surrounding whitespace, optional
sign, decimal digits with optional fractional part and optional exponent.
(`inf`/`nan` spellings and digit underscores are not modelled; no claim
involves them.)  Returns `none` when Python raises `ValueError`. -/
def parseFloatStr (s : String) : Option Rat :=
  let cs := ((s.toList.dropWhile Char.isWhitespace).reverse.dropWhile
    Char.isWhitespace).reverse
  let (sign, cs1) : Rat × List Char :=
    match cs with
    | '+' :: r => (1, r)
    | '-' :: r => (-1, r)
    | r => (1, r)
  let intDigits := cs1.takeWhile Char.isDigit
  let rest1 := cs1.dropWhile Char.isDigit
  let (fracDigits, rest2) : List Char × List Char :=
    match rest1 with
    | '.' :: r => (r.takeWhile Char.isDigit, r.dropWhile Char.isDigit)
    | r => ([], r)
  if intDigits.isEmpty ∧ fracDigits.isEmpty then Option.none
  else
    let mantissa : Rat :=
      sign * ((digitsVal intDigits : Rat) +
        (digitsVal fracDigits : Rat) / ((10 : Rat) ^ fracDigits.length))
    match rest2 with
    | [] => some mantissa
    | 'e' :: r | 'E' :: r =>
      let (esign, r1) : Int × List Char :=
        match r with
        | '+' :: r2 => (1, r2)
        | '-' :: r2 => (-1, r2)
        | r2 => (1, r2)
      let expDigits := r1.takeWhile Char.isDigit
      let r2 := r1.dropWhile Char.isDigit
      if expDigits.isEmpty ∨ ¬r2.isEmpty then Option.none
      else some (mantissa * (10 : Rat) ^ (esign * (digitsVal expDigits : Int)))
    | _ => Option.none

/-- Python `float(x)`: numbers and bools convert, strings parse
(`ValueError` on failure), everything else raises `TypeError`. -/
def pyFloat : Py → Except Unit Rat
  | Py.int n => Except.ok (n : Rat)
  | Py.float q => Except.ok q
  | Py.bool b => Except.ok (if b then 1 else 0)
  | Py.str s =>
    match parseFloatStr s with
    | some q => Except.ok q
    | Option.none => Except.error ()
  | _ => Except.error ()

/-- Lookup in a dict's entry list with a default. -/
def dictGetD (d : List (String × Py)) (k : String) (dflt : Py) : Py :=
  match d.find? (fun kv => kv.1 == k) with
  | some kv => kv.2
  | Option.none => dflt

/-- Python `d.get(k)` (default `None`); raises (`AttributeError`) on a
non-dict receiver. -/
def pyGet (o : Py) (k : String) : Except Unit Py :=
  match o with
  | Py.dict d => Except.ok (dictGetD d k Py.none)
  | _ => Except.error ()

/-- Python `d.get(k, dflt)`; raises on a non-dict receiver. -/
def pyGetD (o : Py) (k : String) (dflt : Py) : Except Unit Py :=
  match o with
  | Py.dict d => Except.ok (dictGetD d k dflt)
  | _ => Except.error ()

/-- Python `d[k]` with a string key: value for a dict (`KeyError` when
absent), `TypeError` otherwise. -/
def pyIndexStr (o : Py) (k : String) : Except Unit Py :=
  match o with
  | Py.dict d =>
    match d.find? (fun kv => kv.1 == k) with
    | some kv => Except.ok kv.2
    | Option.none => Except.error ()
  | _ => Except.error ()

/-- Python `x[i]` with an integer index (only index 0 is used by the code):
list element (`IndexError` out of range), string character, `TypeError`
otherwise. -/
def pyIndexNat (o : Py) (i : Nat) : Except Unit Py :=
  match o with
  | Py.list l =>
    match l.get? i with
    | some v => Except.ok v
    | Option.none => Except.error ()
  | Py.str s =>
    match s.toList.get? i with
    | some c => Except.ok (Py.str (String.singleton c))
    | Option.none => Except.error ()
  | _ => Except.error ()

/-- Python `d[k]` with an arbitrary key value: dict lookup matches the key
against the dict's (string) keys with `==`; `TypeError`/`KeyError`
otherwise. -/
def pyIndexPy (o : Py) (k : Py) : Except Unit Py :=
  match o with
  | Py.dict d =>
    match d.find? (fun kv => pyEq k (Py.str kv.1)) with
    | some kv => Except.ok kv.2
    | Option.none => Except.error ()
  | _ => Except.error ()

/-- Contiguous-sublist test on character lists. -/
def charsInfix (needle : List Char) : List Char → Bool
  | [] => needle.isEmpty
  | c :: t => needle.isPrefixOf (c :: t) || charsInfix needle t

/-- Substring test, for Python `key in s` on strings. -/
def strContains (needle hay : String) : Bool :=
  charsInfix needle.toList hay.toList

/-- Python `key in x` for a string `key`: dict key membership, list element
membership, substring on strings; `TypeError` otherwise. -/
def pyContains (o : Py) (key : String) : Except Unit Bool :=
  match o with
  | Py.dict d => Except.ok (d.any (fun kv => kv.1 == key))
  | Py.list l => Except.ok (l.any (fun v => pyEq v (Py.str key)))
  | Py.str s => Except.ok (strContains key s)
  | _ => Except.error ()

/-- Python `x in c` for an arbitrary value `x`. -/
def pyContainsPy (o : Py) (x : Py) : Except Unit Bool :=
  match o with
  | Py.dict d => Except.ok (d.any (fun kv => pyEq x (Py.str kv.1)))
  | Py.list l => Except.ok (l.any (fun v => pyEq x v))
  | Py.str s =>
    match x with
    | Py.str t => Except.ok (strContains t s)
    | _ => Except.error ()
  | _ => Except.error ()

/-- Python `d[k] = v` on a dict: replace in place if the key exists, else
append (insertion order). -/
def pySetItem (o : Py) (k : String) (v : Py) : Except Unit Py :=
  match o with
  | Py.dict d =>
    if d.any (fun kv => kv.1 == k) then
      Except.ok (Py.dict (d.map (fun kv => if kv.1 == k then (kv.1, v) else kv)))
    else
      Except.ok (Py.dict (d ++ [(k, v)]))
  | _ => Except.error ()

/-- Python `d.values()`; raises on a non-dict receiver. -/
def pyValues (o : Py) : Except Unit (List Py) :=
  match o with
  | Py.dict d => Except.ok (d.map (fun kv => kv.2))
  | _ => Except.error ()

/-- Python iteration `for x in c`: list elements, string characters, dict
keys; `TypeError` for non-iterables. -/
def pyIter (o : Py) : Except Unit (List Py) :=
  match o with
  | Py.list l => Except.ok l
  | Py.str s => Except.ok (s.toList.map (fun c => Py.str (String.singleton c)))
  | Py.dict d => Except.ok (d.map (fun kv => Py.str kv.1))
  | _ => Except.error ()

/-- Keys of a dict response body (used to state aggregate-shape claims). -/
def pyKeys : Py → List String
  | Py.dict d => d.map (fun kv => kv.1)
  | _ => []

/-- Only scalars are hashable in Python; a list or dict inside `set(...)`
raises `TypeError`. -/
def pyHashable : Py → Bool
  | Py.list _ => false
  | Py.dict _ => false
  | _ => true

/-- Auxiliary for `pyDedup`: drop elements Python-equal to one already seen. -/
def pyDedupAux (seen : List Py) : List Py → List Py
  | [] => []
  | x :: xs =>
    if seen.any (fun y => pyEq y x) then pyDedupAux seen xs
    else x :: pyDedupAux (x :: seen) xs

/-- First-occurrence deduplication by Python equality (the contents of
`set(...)`; iteration order of a Python set is unspecified, so the model
fixes first-occurrence order — no claim depends on the order). -/
def pyDedup (l : List Py) : List Py :=
  pyDedupAux [] l

/-- Python `set(l)` as a list of distinct members: raises `TypeError` when
some member is unhashable. -/
def pySet (l : List Py) : Except Unit (List Py) :=
  if l.all pyHashable then Except.ok (pyDedup l) else Except.error ()

/-- Outcome of one upstream HTTP round trip, as the adapters' `try` blocks
distinguish them: a `requests` exception / non-2xx status, a JSON-decode
failure, or a decoded body. -/
inductive Upstream where
  | netFail : Upstream
  | badJson : Upstream
  | ok : Py → Upstream

/-! ## DMart adapter (`src/aggregator_api.py`, `get_dmart_store_id` /
`search_dmart_products`) -/

def DMART_BASE_URL : String := "https://www.dmart.in"

def DMART_CDN : String := "https://cdn.dmart.in/images/products/"

/-- Embeds `get_dmart_store_id`: hardcoded static pincode→store lookup. -/
def get_dmart_store_id (pincode : String) : Option String :=
  if pincode = "500049" ∨ pincode = "500032" then some "10733"
  else if pincode = "400076" then some "10011"
  else Option.none

/-- Body of the per-SKU `try` block of `search_dmart_products`.
`Except.error` models a raised exception (caught by the per-SKU handlers,
which `continue`); `Except.ok Option.none` models the `continue`/no-append
paths; `Except.ok (some p)` models appending the normalized product `p`. -/
def dmartSkuBody (parent_name : Py) (full_product_url : Option String)
    (sku : Py) : Except Unit (Option Py) := do
  let buyable ← pyGet sku "buyable"
  if !pyEq buyable (Py.str "true") then Except.ok Option.none else do
  let invType ← pyGet sku "invType"
  if pyEq invType (Py.str "OOS") then Except.ok Option.none else do
  let mrp_str ← pyGet sku "priceMRP"
  let selling_price_str ← pyGet sku "priceSALE"
  let variant ← pyGet sku "variantTextValue"
  let product_image_key ← pyGet sku "productImageKey"
  let img_code ← pyGet sku "imgCode"
  let image_url : Option String ←
    if pyTruthy product_image_key ∧ pyTruthy img_code then
      Except.ok (some (DMART_CDN ++ pyStr product_image_key ++ "_" ++ pyStr img_code ++ "_P.jpg"))
    else do
      let image_key_fallback ← pyGet sku "imageKey"
      if pyTruthy image_key_fallback ∧ pyTruthy img_code then
        Except.ok (some (DMART_CDN ++ pyStr image_key_fallback ++ "_" ++ pyStr img_code ++ "_P.jpg"))
      else Except.ok Option.none
  let barcode ← pyGet sku "articleNumber"
  if pyTruthy parent_name ∧ pyTruthy mrp_str ∧ pyTruthy selling_price_str then do
    let mrp ← pyFloat mrp_str
    let selling ← pyFloat selling_price_str
    Except.ok (some (Py.dict
      [("name", parent_name),
       ("mrp", Py.float mrp),
       ("selling_price", Py.float selling),
       ("image", match image_url with | some u => Py.str u | Option.none => Py.none),
       ("variant", variant),
       ("barcode", if pyTruthy barcode then barcode else Py.str ""),
       ("deeplink", Py.str (full_product_url.getD ""))]))
  else Except.ok Option.none

/-- One SKU's contribution: a raised exception inside the per-SKU `try` is
caught and the SKU is skipped. -/
def dmartSkuStep (parent_name : Py) (full_product_url : Option String)
    (sku : Py) : Option Py :=
  match dmartSkuBody parent_name full_product_url sku with
  | Except.ok r => r
  | Except.error _ => Option.none

/-- One parent record's contribution.  The parent-level field accesses sit
outside the per-SKU `try`: an exception there propagates to the outer
handler of `search_dmart_products`. -/
def dmartParent (product_item : Py) : Except Unit (List Py) := do
  let parent_name ← pyGet product_item "name"
  let target_url_path ← pyGet product_item "targetUrl"
  let full_product_url : Option String :=
    if pyTruthy target_url_path then some (DMART_BASE_URL ++ pyStr target_url_path)
    else Option.none
  let skus ← pyGetD product_item "sKUs" (Py.list [])
  let skuList ← pyIter skus
  Except.ok (skuList.filterMap (dmartSkuStep parent_name full_product_url))

/-- The parent loop.  An exception at parent level is caught by the outer
handler, which returns the products accumulated so far. -/
def dmartLoop : List Py → List Py
  | [] => []
  | item :: rest =>
    match dmartParent item with
    | Except.ok ps => ps ++ dmartLoop rest
    | Except.error _ => []

/-- Embeds `search_dmart_products`: static store lookup, one search call, then
normalization; every request-level failure yields the empty list. -/
def search_dmart_products (pincode : String) (resp : Upstream) : List Py :=
  match get_dmart_store_id pincode with
  | Option.none => []
  | some _ =>
    match resp with
    | Upstream.netFail => []
    | Upstream.badJson => []
    | Upstream.ok data =>
      match pyGetD data "products" (Py.list []) with
      | Except.error _ => []
      | Except.ok raw_product_list =>
        match pyIter raw_product_list with
        | Except.error _ => []
        | Except.ok items => dmartLoop items

/-! ## 9minutes proxy adapters (`src/aggregator_api.py`,
`search_instamart_products` / `search_zepto_products` /
`search_blinkit_products`)

`call_9minutes_api` returns the parsed JSON or `None` on any failure
(missing location mapping, request exception, decode failure), modelled by
`Option Py`.  The per-item price re-coercion runs outside any `try`, so an
exception there propagates out of the adapter — hence the adapters return
`Except Unit (List Py)`. -/

/-- Embeds `get_9minutes_location_string`: hardcoded passthrough mapping. -/
def get_9minutes_location_string (pincode : String) : Option String :=
  if pincode = "500032" then some "500032_gachibowli_circle_hyd"
  else Option.none

/-- Embeds `item[key] = float(item[key]) if item.get(key) is not None else None`. -/
def coerceField (item : Py) (key : String) : Except Unit Py := do
  let cur ← pyGet item key
  if pyIsNone cur then pySetItem item key Py.none
  else do
    let f ← pyFloat cur
    pySetItem item key (Py.float f)

/-- The two price coercions applied to one upstream item. -/
def coerceItem (item : Py) : Except Unit Py := do
  let i1 ← coerceField item "mrp"
  coerceField i1 "selling_price"

/-- Shared body of the three proxy adapters: select the named per-backend
array from the 9minutes response, re-coerce the numeric price fields of each
item in place, and return the array; absent/ill-shaped array yields `[]`. -/
def search_9minutes_backend (key : String) (resp : Option Py) :
    Except Unit (List Py) :=
  match resp with
  | Option.none => Except.ok []
  | some data =>
    if !pyTruthy data then Except.ok [] else do
      let arr ← pyGet data key
      match arr with
      | Py.list items => items.mapM coerceItem
      | _ => Except.ok []

/-- Embeds `search_instamart_products`. -/
def search_instamart_products (resp : Option Py) : Except Unit (List Py) :=
  search_9minutes_backend "instamart_products" resp

/-- Embeds `search_zepto_products`. -/
def search_zepto_products (resp : Option Py) : Except Unit (List Py) :=
  search_9minutes_backend "zepto_products" resp

/-- Embeds `search_blinkit_products`. -/
def search_blinkit_products (resp : Option Py) : Except Unit (List Py) :=
  search_9minutes_backend "blinkit_products" resp

/-! ## JioMart adapter (`src/jiomart.py`, `build_algolia_or_filter` /
`get_jiomart_inventory_codes` / `search_jiomart_products`) -/

def jiomart_base_url : String := "https://www.jiomart.com"

/-- Embeds `build_algolia_or_filter`: the empty string for an empty collection, otherwise the
deduplicated values formatted `key:value` and joined with `OR` in
parentheses.  `set(values)` raises `TypeError` on unhashable members. -/
def build_algolia_or_filter (key_name : String) (values : List Py) :
    Except Unit String :=
  if values.isEmpty then Except.ok ""
  else do
    let unique_values ← pySet values
    let clauses := unique_values.map (fun v => key_name ++ ":" ++ pyStr v)
    Except.ok ("(" ++ String.intercalate " OR " clauses ++ ")")

/-- Embeds `get_jiomart_inventory_codes`: returns the decoded mapping payload when
the call succeeded and the payload exposes both `region_codes` and
`store_codes`; `None` on any failure (non-2xx, undecodable body, missing
collection, or raised exception — every handler returns `None`). -/
def get_jiomart_inventory_codes (resp : Upstream) : Option Py :=
  match resp with
  | Upstream.netFail => Option.none
  | Upstream.badJson => Option.none
  | Upstream.ok data =>
    match pyContains data "region_codes", pyContains data "store_codes" with
    | Except.ok true, Except.ok true => some data
    | _, _ => Option.none

/-- Embeds the code-collection comprehension: the set of all codes occurring in
the value lists of `location_data.get(key)`, an empty dict as default. -/
def collectCodes (location_data : Py) (key : String) :
    Except Unit (List Py) := do
  let v ← pyGetD location_data key (Py.dict [])
  let vals ← pyValues v
  let nested ← vals.mapM pyIter
  pySet nested.flatten

/-- The filter-building `try` block of `search_jiomart_products` (Step 2):
returns the `available_stores` OR-filter, the resolved store-code list and
the final conjunctive filter string; any exception aborts the backend. -/
def jiomartBuildFilters (location_data : Py) :
    Except Unit (String × List Py × String) := do
  let all_region_codes ← collectCodes location_data "region_codes"
  let available_stores_filter ← build_algolia_or_filter "available_stores" all_region_codes
  let all_store_codes ← collectCodes location_data "store_codes"
  let inventory_clauses := ["inventory_stores:ALL", "inventory_stores_3p:ALL"]
    ++ all_store_codes.map (fun code => "inventory_stores:" ++ pyStr code)
    ++ all_store_codes.map (fun code => "inventory_stores_3p:" ++ pyStr code)
  let inventory_filter := "(" ++ String.intercalate " OR " inventory_clauses ++ ")"
  let base_filters := "(mart_availability:JIO OR mart_availability:JIO_WA)"
  let exclusions := "(NOT vertical_code:ALCOHOL) AND (NOT vertical_code:LOCALSHOPS)"
  Except.ok (available_stores_filter, all_store_codes,
    base_filters ++ " AND " ++ available_stores_filter ++ " AND " ++ exclusions
      ++ " AND " ++ inventory_filter)

/-- Accumulator of the two price-selection loops: `mrp_num`,
`selling_price_num`, `found_price`. -/
structure PriceAcc where
  mrp_num : Option Rat
  selling_price_num : Option Rat
  found_price : Bool

def PriceAcc.init : PriceAcc :=
  { mrp_num := Option.none, selling_price_num := Option.none, found_price := false }

/-- The shared body of both loops: given one `price_info` record, update the
accumulator when the record is truthy and its `available` flag is truthy
(`float(...)` here may raise, which skips the whole hit). -/
def priceFromInfo (price_info : Py) (acc : PriceAcc) :
    Except Unit PriceAcc := do
  if !pyTruthy price_info then Except.ok acc else do
  let avail ← pyGet price_info "available"
  if !pyTruthy avail then Except.ok acc else do
  let mrpv ← pyGet price_info "mrp"
  let m ← if pyIsNone mrpv then Except.ok Option.none
          else do let f ← pyFloat mrpv; Except.ok (some f)
  let pv ← pyGet price_info "price"
  let p ← if pyIsNone pv then Except.ok Option.none
          else do let f ← pyFloat pv; Except.ok (some f)
  Except.ok { mrp_num := m, selling_price_num := p, found_price := p.isSome }

/-- The primary loop over the resolved store codes (`break` once a non-null
selling price is found; set iteration order is modelled as the resolved
list's order — no claim depends on which matching store wins). -/
def storeLoop (buybox : Py) : List Py → PriceAcc → Except Unit PriceAcc
  | [], acc => Except.ok acc
  | store_code :: rest, acc => do
    let b ← pyContainsPy buybox store_code
    if !b then storeLoop buybox rest acc else do
    let price_info ← pyIndexPy buybox store_code
    let acc1 ← priceFromInfo price_info acc
    if acc1.found_price then Except.ok acc1 else storeLoop buybox rest acc1

/-- The fallback loop over `buybox_mrp_data.items()` in raw order. -/
def fallbackLoop : List (String × Py) → PriceAcc → Except Unit PriceAcc
  | [], acc => Except.ok acc
  | (_, price_info) :: rest, acc => do
    let acc1 ← priceFromInfo price_info acc
    if acc1.found_price then Except.ok acc1 else fallbackLoop rest acc1

/-- Body of the per-hit `try` block of `search_jiomart_products` (Step 5).
`Except.error` models a raised exception (caught, hit skipped);
`Except.ok Option.none` models the skip branch; `Except.ok (some p)` models
appending the normalized product. -/
def jiomartHitBody (all_store_codes : List Py) (hit : Py) :
    Except Unit (Option Py) := do
  let name ← pyGet hit "display_name"
  let buybox_mrp_data ← pyGetD hit "buybox_mrp" (Py.dict [])
  let acc1 ← storeLoop buybox_mrp_data all_store_codes PriceAcc.init
  let acc ←
    if !acc1.found_price ∧ pyTruthy buybox_mrp_data then
      match buybox_mrp_data with
      | Py.dict entries => fallbackLoop entries acc1
      | _ => Except.error ()
    else Except.ok acc1
  let url_path ← pyGet hit "url_path"
  let deeplink : String :=
    if pyTruthy url_path then jiomart_base_url ++ pyStr url_path
    else jiomart_base_url
  let image_relative_url ← pyGet hit "image_path"
  let image : Py :=
    if pyTruthy image_relative_url then
      Py.str (jiomart_base_url ++ "/images/product/original/"
        ++ pyStr image_relative_url ++ "?im=Resize=(150,150)")
    else Py.none
  let barcode ← pyGet hit "product_code"
  if pyTruthy name ∧ acc.selling_price_num.isSome then
    Except.ok (some (Py.dict
      [("name", name),
       ("mrp", match acc.mrp_num with | some q => Py.float q | Option.none => Py.none),
       ("selling_price",
         match acc.selling_price_num with | some q => Py.float q | Option.none => Py.none),
       ("image", image),
       ("variant", Py.none),
       ("barcode", Py.str (if pyTruthy barcode then pyStr barcode else "")),
       ("deeplink", Py.str deeplink)]))
  else Except.ok Option.none

/-- One hit's contribution; an exception inside the per-hit `try` skips the
hit. -/
def jiomartHitStep (all_store_codes : List Py) (hit : Py) : Option Py :=
  match jiomartHitBody all_store_codes hit with
  | Except.ok r => r
  | Except.error _ => Option.none

/-- Extraction of the hit list from the Algolia response body (Step 5's
guards before the hit loop). -/
def jiomartParseHits (data : Py) : Except Unit (List Py) := do
  if !pyTruthy data then Except.ok [] else do
  let hasResults ← pyContains data "results"
  if !hasResults then Except.ok [] else do
  let resultsVal ← pyIndexStr data "results"
  if !pyTruthy resultsVal then Except.ok [] else do
  let first ← pyIndexNat resultsVal 0
  let hits ← pyGetD first "hits" (Py.list [])
  pyIter hits

/-- Steps 4–5 of `search_jiomart_products`: the Algolia call and response
normalization.  Exceptions reach the outer handlers before any product has
been appended, so they yield `[]`. -/
def jiomartAlgolia (all_store_codes : List Py) (resp : Upstream) : List Py :=
  match resp with
  | Upstream.netFail => []
  | Upstream.badJson => []
  | Upstream.ok data =>
    match jiomartParseHits data with
    | Except.error _ => []
    | Except.ok hits => hits.filterMap (jiomartHitStep all_store_codes)

/-- Embeds `search_jiomart_products`, two-phase.  The mapping response comes first,
the Algolia response second; the `Bool` of the result records whether the
phase-2 (Algolia) query was issued. -/
def search_jiomart_products (mapping : Upstream) (algolia : Upstream) :
    List Py × Bool :=
  match get_jiomart_inventory_codes mapping with
  | Option.none => ([], false)
  | some location_data =>
    if !pyTruthy location_data then ([], false)
    else
      match jiomartBuildFilters location_data with
      | Except.error _ => ([], false)
      | Except.ok (available_stores_filter, all_store_codes, _final_filters) =>
        if available_stores_filter = "" ∨ all_store_codes.isEmpty then ([], false)
        else (jiomartAlgolia all_store_codes algolia, true)

/-! ## The `/search_all` endpoint (`src/aggregator_api.py`,
`search_all_platforms`)

A request parameter is `Option String`: `none` models an absent parameter
(Flask's `request.args.get` returns `None`).  Each backend's
`future.result()` either returns the adapter's list or re-raises whatever
the adapter raised (a timeout is also surfaced as a caught exception),
modelled as `Except Unit (List Py)`; the orchestrator-level `try` blocks
convert an exception into `[]` for that backend's key. -/

/-- HTTP response produced by the endpoint: status code and JSON body. -/
structure HttpResponse where
  status : Nat
  body : Py

/-- Python truthiness of an `Optional[str]` request parameter
(`not query` is true when the parameter is absent or the empty string). -/
def argTruthy : Option String → Bool
  | Option.none => false
  | some s => s ≠ ""

/-- Python `str.isdigit` restricted to the ASCII digits (Python also accepts
some non-ASCII Unicode digit characters; no pincode in the spec or the
claims uses them). -/
def pyStrIsdigit (s : String) : Bool :=
  !s.isEmpty && s.toList.all Char.isDigit

/-- One orchestrator-level `try`: `future.result()` with an exception
converted into the empty list. -/
def futureResultOrEmpty (r : Except Unit (List Py)) : List Py :=
  match r with
  | Except.ok l => l
  | Except.error _ => []

/-- Embeds `search_all_platforms`.  The five backend calls are concurrent
and independent in the source; their outcomes are the five `Except`
parameters.  The `Bool` of the result records whether the backend tasks
were submitted (validation failures return before the executor block). -/
def search_all_platforms (query pincode : Option String)
    (instamart zepto blinkit dmart jiomart : Except Unit (List Py)) :
    HttpResponse × Bool :=
  if !argTruthy query ∨ !argTruthy pincode then
    (⟨400, Py.dict [("error", Py.str "Missing 'query' or 'pincode' parameter")]⟩, false)
  else if !pyStrIsdigit (pincode.getD "") ∨ (pincode.getD "").length ≠ 6 then
    (⟨400, Py.dict [("error", Py.str "Pincode must be 6 digits")]⟩, false)
  else
    (⟨200, Py.dict
      [("instamart_products", Py.list (futureResultOrEmpty instamart)),
       ("zepto_products", Py.list (futureResultOrEmpty zepto)),
       ("blinkit_products", Py.list (futureResultOrEmpty blinkit)),
       ("dmart_products", Py.list (futureResultOrEmpty dmart)),
       ("jiomart_products", Py.list (futureResultOrEmpty jiomart))]⟩, true)

/-! ## Derived definitions used by the theorems -/

/-- The five configured backend keys, in response order. -/
def configuredBackendKeys : List String :=
  ["instamart_products", "zepto_products", "blinkit_products",
   "dmart_products", "jiomart_products"]

/-- Helper: does an `Except`-computation succeed? -/
def exceptToBool {α : Type} : Except Unit α → Bool
  | Except.ok _ => true
  | Except.error _ => false

/-- The image URL the DMart adapter constructs for a SKU (primary key pair,
then fallback key pair, else no image). -/
def dmartImageUrl (d : List (String × Py)) : Option String :=
  if pyTruthy (dictGetD d "productImageKey" Py.none) = true
      ∧ pyTruthy (dictGetD d "imgCode" Py.none) = true then
    some (DMART_CDN ++ pyStr (dictGetD d "productImageKey" Py.none) ++ "_"
      ++ pyStr (dictGetD d "imgCode" Py.none) ++ "_P.jpg")
  else if pyTruthy (dictGetD d "imageKey" Py.none) = true
      ∧ pyTruthy (dictGetD d "imgCode" Py.none) = true then
    some (DMART_CDN ++ pyStr (dictGetD d "imageKey" Py.none) ++ "_"
      ++ pyStr (dictGetD d "imgCode" Py.none) ++ "_P.jpg")
  else Option.none

/-- The normalized product the DMart adapter emits for an included SKU. -/
def dmartProduct (pn : Py) (url : Option String) (d : List (String × Py))
    (mrp selling : Rat) : Py :=
  Py.dict
    [("name", pn), ("mrp", Py.float mrp), ("selling_price", Py.float selling),
     ("image", match dmartImageUrl d with | some u => Py.str u | Option.none => Py.none),
     ("variant", dictGetD d "variantTextValue" Py.none),
     ("barcode", if pyTruthy (dictGetD d "articleNumber" Py.none) = true then
         dictGetD d "articleNumber" Py.none else Py.str ""),
     ("deeplink", Py.str (url.getD ""))]

/-- Inclusion predicate of the amended C7 claim, in the spec's vocabulary:
the SKU is a record marked buyable (exact string `"true"`), its inventory
status is not the out-of-stock marker, its parent has a name, and both the
MRP and selling-price fields are present, truthy, and parse as numbers. -/
def dmartIncludable (parent_name : Py) (sku : Py) : Bool :=
  match sku with
  | Py.dict d =>
    pyEq (dictGetD d "buyable" Py.none) (Py.str "true") &&
    !pyEq (dictGetD d "invType" Py.none) (Py.str "OOS") &&
    pyTruthy parent_name &&
    pyTruthy (dictGetD d "priceMRP" Py.none) &&
    exceptToBool (pyFloat (dictGetD d "priceMRP" Py.none)) &&
    pyTruthy (dictGetD d "priceSALE" Py.none) &&
    exceptToBool (pyFloat (dictGetD d "priceSALE" Py.none))
  | _ => false

/-- C7 counterexample: a SKU that is buyable, in stock, under a named
parent, with both price fields present and numerically parseable (MRP is the
JSON number `0`), is nevertheless excluded — the code requires the price
fields to be truthy, and `0` is falsy in Python. -/
def c7sku : Py := Py.dict
  [("buyable", Py.str "true"), ("invType", Py.str "IN"),
   ("priceMRP", Py.int 0), ("priceSALE", Py.str "10.5")]

/-- Single-parent DMart response containing only `c7sku`. -/
def c7resp : Py := Py.dict
  [("products", Py.list [Py.dict
    [("name", Py.str "X"), ("targetUrl", Py.str "/p/x"),
     ("sKUs", Py.list [c7sku])]])]

/-- Does a price record carry a truthy `available` flag?  (Spec vocabulary
for C3: a non-record value carries no flag.) -/
def recordAvailable (v : Py) : Bool :=
  match v with
  | Py.dict pd => pyTruthy (Py.dict pd) && pyTruthy (dictGetD pd "available" Py.none)
  | _ => false

/-- JioMart mapping response used by the C3 counterexample: both collections
present, one region code and one store code. -/
def c3map : Upstream := Upstream.ok (Py.dict
  [("region_codes", Py.dict [("r", Py.list [Py.str "R1"])]),
   ("store_codes", Py.dict [("s", Py.list [Py.str "S1"])])])

/-- Algolia hit of the C3 counterexample: a display name but an empty
price map (no available price record at all). -/
def c3hit : Py := Py.dict
  [("display_name", Py.str "X"), ("buybox_mrp", Py.dict [])]

/-- Algolia response of the C3 counterexample containing only `c3hit`. -/
def c3alg : Upstream := Upstream.ok (Py.dict
  [("results", Py.list [Py.dict [("hits", Py.list [c3hit])]])])

/-! ## Theorems -/

/-- C1: for every valid request (query non-empty, pincode a 6-digit string),
the aggregate result contains exactly the five configured backend keys, each
mapped to a list (possibly empty, never absent and never null), regardless
of which subset of backend adapter calls fail, raise, or time out. -/
theorem claim_C1_aggregate_shape (q : Option String) (s : String)
    (instamart zepto blinkit dmart jiomart : Except Unit (List Py))
    (hq : argTruthy q = true) (hd : pyStrIsdigit s = true) (hl : s.length = 6) :
    (search_all_platforms q (some s) instamart zepto blinkit dmart jiomart).1.status = 200 ∧
    pyKeys (search_all_platforms q (some s) instamart zepto blinkit dmart
      jiomart).1.body = configuredBackendKeys ∧
    ∃ l1 l2 l3 l4 l5 : List Py,
      (search_all_platforms q (some s) instamart zepto blinkit dmart jiomart).1.body
        = Py.dict
          [("instamart_products", Py.list l1), ("zepto_products", Py.list l2),
           ("blinkit_products", Py.list l3), ("dmart_products", Py.list l4),
           ("jiomart_products", Py.list l5)] := by
  have hs : s ≠ "" := by
    intro h
    subst h
    simp at hl
  have h2 : argTruthy (some s) = true := by simp [argTruthy, hs]
  simp [search_all_platforms, hq, h2, hd, hl, pyKeys, configuredBackendKeys]

/-- Witness for C1 at a concrete valid request with three backends raising. -/
theorem claim_C1_witness :
    (search_all_platforms (some "milk") (some "500032") (Except.error ())
      (Except.ok [Py.none]) (Except.error ()) (Except.ok []) (Except.error ())).1.status = 200 ∧
    pyKeys (search_all_platforms (some "milk") (some "500032") (Except.error ())
      (Except.ok [Py.none]) (Except.error ()) (Except.ok []) (Except.error ())).1.body
      = configuredBackendKeys ∧
    ∃ l1 l2 l3 l4 l5 : List Py,
      (search_all_platforms (some "milk") (some "500032") (Except.error ())
        (Except.ok [Py.none]) (Except.error ()) (Except.ok []) (Except.error ())).1.body
        = Py.dict
          [("instamart_products", Py.list l1), ("zepto_products", Py.list l2),
           ("blinkit_products", Py.list l3), ("dmart_products", Py.list l4),
           ("jiomart_products", Py.list l5)] :=
  claim_C1_aggregate_shape (some "milk") "500032" _ _ _ _ _ (by decide) (by decide) (by decide)

/-- C10: a present-but-empty query parameter yields status 400 with an error
body — the same outcome as an absent query — and the backend tasks are never
submitted. -/
theorem claim_C10_empty_query (p : Option String)
    (i z b d j : Except Unit (List Py)) :
    search_all_platforms (some "") p i z b d j
      = search_all_platforms Option.none p i z b d j ∧
    (search_all_platforms (some "") p i z b d j).1.status = 400 ∧
    (search_all_platforms (some "") p i z b d j).1.body
      = Py.dict [("error", Py.str "Missing 'query' or 'pincode' parameter")] ∧
    (search_all_platforms (some "") p i z b d j).2 = false :=
  ⟨rfl, rfl, rfl, rfl⟩

/-- C4 counterexample: a request whose query is present (the empty string)
and whose pincode is present and is exactly 6 ASCII digits is answered with
status 400, although the claim's 400-condition (query missing, pincode
missing, or pincode not 6 digits) does not hold. -/
theorem claim_C4_counterexample :
    (search_all_platforms (some "") (some "500032") (Except.ok [])
      (Except.ok []) (Except.ok []) (Except.ok []) (Except.ok [])).1.status = 400 ∧
    (some "" : Option String) ≠ Option.none ∧
    (some "500032" : Option String) ≠ Option.none ∧
    pyStrIsdigit "500032" = true ∧ "500032".length = 6 :=
  ⟨rfl, by simp, by simp, by decide, by decide⟩

/-- C4 amended: the endpoint returns 400 with an error body exactly when the
query is missing or empty, the pincode is missing or empty, or the pincode
is not exactly 6 digits; every other request yields status 200. -/
theorem claim_C4_amended (q p : Option String)
    (i z b d j : Except Unit (List Py)) :
    ((search_all_platforms q p i z b d j).1.status = 400 ↔
      (argTruthy q = false ∨ argTruthy p = false ∨
        pyStrIsdigit (p.getD "") = false ∨ (p.getD "").length ≠ 6)) ∧
    ((search_all_platforms q p i z b d j).1.status = 200 ↔
      ¬(argTruthy q = false ∨ argTruthy p = false ∨
        pyStrIsdigit (p.getD "") = false ∨ (p.getD "").length ≠ 6)) ∧
    ((search_all_platforms q p i z b d j).1.status = 400 →
      ∃ msg, (search_all_platforms q p i z b d j).1.body
        = Py.dict [("error", Py.str msg)]) := by
  unfold search_all_platforms
  by_cases h1 : argTruthy q <;> by_cases h2 : argTruthy p <;>
    by_cases h3 : pyStrIsdigit (p.getD "") <;>
    by_cases h4 : (p.getD "").length = 6 <;>
    simp [h1, h2, h3, h4]

/-- Witness for C4's amended claim: error body at a concrete 400 request. -/
theorem claim_C4_witness :
    ∃ msg, (search_all_platforms Option.none Option.none (Except.ok [])
      (Except.ok []) (Except.ok []) (Except.ok []) (Except.ok [])).1.body
        = Py.dict [("error", Py.str msg)] :=
  (claim_C4_amended Option.none Option.none (Except.ok []) (Except.ok [])
    (Except.ok []) (Except.ok []) (Except.ok [])).2.2 rfl

/-- Helper: lawful boolean equality is symmetric. -/
lemma beqComm {α : Type} [BEq α] [LawfulBEq α] (a b : α) : (a == b) = (b == a) := by
  by_cases h : a = b
  · subst h; rfl
  · rw [beq_eq_false_iff_ne.mpr h, beq_eq_false_iff_ne.mpr (Ne.symm h)]

/-- Helper: Python equality is symmetric. -/
lemma pyEq_symm (x y : Py) : pyEq x y = pyEq y x := by
  unfold pyEq
  cases hx : pyNumVal x <;> cases hy : pyNumVal y
  · cases x <;> cases y <;> simp_all [pyNumVal, beqComm]
  · cases x <;> cases y <;> simp_all [pyNumVal]
  · cases x <;> cases y <;> simp_all [pyNumVal]
  · exact beqComm _ _

/-- Helper: Python equality is reflexive on hashable values. -/
lemma pyEq_refl_hashable (x : Py) (h : pyHashable x = true) : pyEq x x = true := by
  cases x <;> simp_all [pyEq, pyNumVal, pyHashable]

/-- Helper: no member of `pyDedupAux seen l` is Python-equal to a member of
`seen`. -/
lemma mem_pyDedupAux_not_seen (l : List Py) :
    ∀ (seen : List Py) (y : Py), y ∈ pyDedupAux seen l →
      ∀ s ∈ seen, pyEq s y = false := by
  induction l with
  | nil => simp [pyDedupAux]
  | cons x xs ih =>
    intro seen y hy s hs
    by_cases hx : (seen.any fun t => pyEq t x) = true
    · rw [pyDedupAux, if_pos hx] at hy
      exact ih seen y hy s hs
    · rw [pyDedupAux, if_neg hx] at hy
      rcases List.mem_cons.mp hy with rfl | hy
      · by_contra hcon
        exact hx (List.any_eq_true.mpr ⟨s, hs, by
          cases he : pyEq s y
          · exact absurd he hcon
          · rfl⟩)
      · exact ih (x :: seen) y hy s (List.mem_cons_of_mem _ hs)

/-- Helper: `pyDedupAux` output is pairwise Python-distinct. -/
lemma pyDedupAux_pairwise (l : List Py) :
    ∀ seen : List Py,
      (pyDedupAux seen l).Pairwise (fun a b => pyEq a b = false) := by
  induction l with
  | nil => intro seen; simp [pyDedupAux]
  | cons x xs ih =>
    intro seen
    by_cases hx : (seen.any fun t => pyEq t x) = true
    · rw [pyDedupAux, if_pos hx]; exact ih seen
    · rw [pyDedupAux, if_neg hx]
      exact List.Pairwise.cons
        (fun y hy => mem_pyDedupAux_not_seen xs (x :: seen) y hy x
          (List.mem_cons_self _ _))
        (ih (x :: seen))

/-- Helper: `pyDedupAux` output members come from the input. -/
lemma mem_pyDedupAux_mem (l : List Py) :
    ∀ (seen : List Py) (y : Py), y ∈ pyDedupAux seen l → y ∈ l := by
  induction l with
  | nil => simp [pyDedupAux]
  | cons x xs ih =>
    intro seen y hy
    by_cases hx : (seen.any fun t => pyEq t x) = true
    · rw [pyDedupAux, if_pos hx] at hy
      exact List.mem_cons_of_mem _ (ih seen y hy)
    · rw [pyDedupAux, if_neg hx] at hy
      rcases List.mem_cons.mp hy with rfl | hy
      · exact List.mem_cons_self _ _
      · exact List.mem_cons_of_mem _ (ih (x :: seen) y hy)

/-- Helper: every hashable input value is represented in `pyDedupAux`'s
output or in `seen`, up to Python equality. -/
lemma pyDedupAux_covers (l : List Py) :
    ∀ (seen : List Py) (v : Py), v ∈ l → pyHashable v = true →
      ∃ w, (w ∈ pyDedupAux seen l ∨ w ∈ seen) ∧ pyEq v w = true := by
  induction l with
  | nil => simp
  | cons x xs ih =>
    intro seen v hv hh
    by_cases hx : (seen.any fun t => pyEq t x) = true
    · rw [pyDedupAux, if_pos hx]
      rcases List.mem_cons.mp hv with rfl | hv
      · rcases List.any_eq_true.mp hx with ⟨t, ht, hpe⟩
        exact ⟨t, Or.inr ht, by rw [pyEq_symm]; exact hpe⟩
      · exact ih seen v hv hh
    · rw [pyDedupAux, if_neg hx]
      rcases List.mem_cons.mp hv with rfl | hv
      · exact ⟨v, Or.inl (List.mem_cons_self _ _), pyEq_refl_hashable v hh⟩
      · rcases ih (x :: seen) v hv hh with ⟨w, hw, he⟩
        rcases hw with hw | hw
        · exact ⟨w, Or.inl (List.mem_cons_of_mem _ hw), he⟩
        · rcases List.mem_cons.mp hw with rfl | hw
          · exact ⟨w, Or.inl (List.mem_cons_self _ _), he⟩
          · exact ⟨w, Or.inr hw, he⟩

/-- C5: the filter builder returns the empty string for an empty value
collection, and otherwise a parenthesized ' OR '-join of `key:value` clauses
built from the deduplicated values — pairwise Python-distinct, drawn from
the input, and covering every input value — with the claim's concrete
example producing exactly the clauses `k:a` and `k:b`. -/
theorem claim_C5_filter_builder (k : String) (vs : List Py)
    (hh : vs.all pyHashable = true) :
    build_algolia_or_filter k [] = Except.ok "" ∧
    (vs ≠ [] → build_algolia_or_filter k vs =
      Except.ok ("(" ++ String.intercalate " OR "
        ((pyDedup vs).map (fun v => k ++ ":" ++ pyStr v)) ++ ")")) ∧
    (pyDedup vs).Pairwise (fun a b => pyEq a b = false) ∧
    (∀ v ∈ pyDedup vs, v ∈ vs) ∧
    (∀ v ∈ vs, ∃ w ∈ pyDedup vs, pyEq v w = true) ∧
    build_algolia_or_filter "k" [Py.str "a", Py.str "a", Py.str "b"]
      = Except.ok "(k:a OR k:b)" := by
  refine ⟨rfl, ?_, pyDedupAux_pairwise vs [], ?_, ?_, rfl⟩
  · intro hne
    simp [build_algolia_or_filter, pySet, hh, hne, pyDedup, Bind.bind, Except.bind]
  · exact fun v hv => mem_pyDedupAux_mem vs [] v hv
  · intro v hv
    rcases pyDedupAux_covers vs [] v hv
      (by simpa using List.all_eq_true.mp hh v hv) with ⟨w, hw, he⟩
    rcases hw with hw | hw
    · exact ⟨w, hw, he⟩
    · simp at hw

/-- Witness for C5 at the claim's concrete example. -/
theorem claim_C5_witness :
    build_algolia_or_filter "k" [Py.str "a", Py.str "a", Py.str "b"]
      = Except.ok "(k:a OR k:b)" :=
  (claim_C5_filter_builder "k" [Py.str "a", Py.str "a", Py.str "b"]
    (by decide)).2.2.2.2.2

/-- Helper: when either resolved code set is empty, the built filters have
an empty `available_stores` clause or an empty store-code list. -/
lemma jiomartBuildFilters_empty_codes (ld : Py)
    (h : collectCodes ld "region_codes" = Except.ok [] ∨
         collectCodes ld "store_codes" = Except.ok [])
    (asf : String) (scs : List Py) (ff : String)
    (hb : jiomartBuildFilters ld = Except.ok (asf, scs, ff)) :
    asf = "" ∨ scs = [] := by
  unfold jiomartBuildFilters at hb
  rcases h with h | h
  · rw [h] at hb
    simp only [Bind.bind, Except.bind, build_algolia_or_filter, List.isEmpty_nil,
      if_true] at hb
    cases hcs : collectCodes ld "store_codes" with
    | error e =>
      rw [hcs] at hb
      simp at hb
    | ok l2 =>
      rw [hcs] at hb
      simp at hb
      exact Or.inl hb.1.symm
  · cases hcr : collectCodes ld "region_codes" with
    | error e =>
      rw [hcr] at hb
      simp [Bind.bind, Except.bind] at hb
    | ok l1 =>
      rw [hcr] at hb
      simp only [Bind.bind, Except.bind] at hb
      cases hbf : build_algolia_or_filter "available_stores" l1 with
      | error e =>
        rw [hbf] at hb
        simp at hb
      | ok s1 =>
        rw [hbf, h] at hb
        simp at hb
        exact Or.inr hb.2.1

/-- C6: the JioMart adapter is all-or-nothing on location resolution — when
the mapping call fails (non-2xx, undecodable body, payload missing either
code collection), or either resolved code set is empty, the adapter returns
the empty sequence without issuing the phase-2 Algolia query. -/
theorem claim_C6_all_or_nothing :
    get_jiomart_inventory_codes Upstream.netFail = Option.none ∧
    get_jiomart_inventory_codes Upstream.badJson = Option.none ∧
    (∀ d : List (String × Py),
      ((d.any fun kv => kv.1 == "region_codes") = false ∨
       (d.any fun kv => kv.1 == "store_codes") = false) →
      get_jiomart_inventory_codes (Upstream.ok (Py.dict d)) = Option.none) ∧
    (∀ mapping algolia, get_jiomart_inventory_codes mapping = Option.none →
      search_jiomart_products mapping algolia = ([], false)) ∧
    (∀ mapping ld algolia, get_jiomart_inventory_codes mapping = some ld →
      (collectCodes ld "region_codes" = Except.ok [] ∨
       collectCodes ld "store_codes" = Except.ok []) →
      search_jiomart_products mapping algolia = ([], false)) := by
  refine ⟨rfl, rfl, ?_, ?_, ?_⟩
  · intro d h
    unfold get_jiomart_inventory_codes
    rcases h with h | h
    · simp [pyContains, h]
    · cases hb : (d.any fun kv => kv.1 == "region_codes") <;>
        simp [pyContains, h, hb]
  · intro mapping algolia h
    simp [search_jiomart_products, h]
  · intro mapping ld algolia hm hcc
    unfold search_jiomart_products
    rw [hm]
    cases ht : pyTruthy ld
    · simp [ht]
    · simp only [ht, Bool.not_true]
      cases hfb : jiomartBuildFilters ld with
      | error e => simp
      | ok triple =>
        rcases triple with ⟨asf, scs, ff⟩
        rcases jiomartBuildFilters_empty_codes ld hcc asf scs ff hfb with h | h
        · simp [h]
        · simp [h]

/-- Witness for C6: a mapping payload with both collections present but an
empty store-code set makes the backend return empty without a phase-2 call. -/
theorem claim_C6_witness :
    search_jiomart_products
      (Upstream.ok (Py.dict
        [("region_codes", Py.dict [("r", Py.list [Py.str "R1"])]),
         ("store_codes", Py.dict [("s", Py.list [])])]))
      (Upstream.ok Py.none) = ([], false) :=
  claim_C6_all_or_nothing.2.2.2.2
    (Upstream.ok (Py.dict
      [("region_codes", Py.dict [("r", Py.list [Py.str "R1"])]),
       ("store_codes", Py.dict [("s", Py.list [])])]))
    _ (Upstream.ok Py.none) rfl (Or.inr rfl)

/-- Helper: closed form of the per-SKU step on a dict SKU. -/
lemma dmartSkuStep_dict (pn : Py) (url : Option String)
    (d : List (String × Py)) :
    dmartSkuStep pn url (Py.dict d) =
      if pyEq (dictGetD d "buyable" Py.none) (Py.str "true") = true
          ∧ pyEq (dictGetD d "invType" Py.none) (Py.str "OOS") = false
          ∧ pyTruthy pn = true
          ∧ pyTruthy (dictGetD d "priceMRP" Py.none) = true
          ∧ pyTruthy (dictGetD d "priceSALE" Py.none) = true then
        match pyFloat (dictGetD d "priceMRP" Py.none),
              pyFloat (dictGetD d "priceSALE" Py.none) with
        | Except.ok m, Except.ok s => some (dmartProduct pn url d m s)
        | _, _ => Option.none
      else Option.none := by
  unfold dmartSkuStep dmartSkuBody
  simp only [pyGet, Bind.bind, Except.bind]
  by_cases h1 : pyEq (dictGetD d "buyable" Py.none) (Py.str "true") = true
  case neg => simp [h1]
  case pos =>
  by_cases h2 : pyEq (dictGetD d "invType" Py.none) (Py.str "OOS") = true
  case pos => simp [h1, h2]
  case neg =>
  by_cases hT : pyTruthy pn = true
      ∧ pyTruthy (dictGetD d "priceMRP" Py.none) = true
      ∧ pyTruthy (dictGetD d "priceSALE" Py.none) = true
  case neg =>
    by_cases hP : pyTruthy (dictGetD d "productImageKey" Py.none) = true <;>
      by_cases hI : pyTruthy (dictGetD d "imgCode" Py.none) = true <;>
      by_cases hF : pyTruthy (dictGetD d "imageKey" Py.none) = true <;>
      simp [h1, h2, hP, hI, hF, hT]
  case pos =>
  obtain ⟨ha, hb, hc⟩ := hT
  cases hm : pyFloat (dictGetD d "priceMRP" Py.none) with
  | error e =>
    by_cases hP : pyTruthy (dictGetD d "productImageKey" Py.none) = true <;>
      by_cases hI : pyTruthy (dictGetD d "imgCode" Py.none) = true <;>
      by_cases hF : pyTruthy (dictGetD d "imageKey" Py.none) = true <;>
      simp [h1, h2, hP, hI, hF, ha, hb, hc, hm]
  | ok m =>
    cases hs : pyFloat (dictGetD d "priceSALE" Py.none) with
    | error e =>
      by_cases hP : pyTruthy (dictGetD d "productImageKey" Py.none) = true <;>
        by_cases hI : pyTruthy (dictGetD d "imgCode" Py.none) = true <;>
        by_cases hF : pyTruthy (dictGetD d "imageKey" Py.none) = true <;>
        simp [h1, h2, hP, hI, hF, ha, hb, hc, hm, hs]
    | ok s =>
      by_cases hP : pyTruthy (dictGetD d "productImageKey" Py.none) = true <;>
        by_cases hI : pyTruthy (dictGetD d "imgCode" Py.none) = true <;>
        by_cases hF : pyTruthy (dictGetD d "imageKey" Py.none) = true <;>
        simp [h1, h2, hP, hI, hF, ha, hb, hc, hm, hs, dmartProduct, dmartImageUrl]

/-- Helper: a SKU contributes a product exactly when `dmartIncludable`
holds. -/
lemma dmartSkuStep_isSome (pn : Py) (url : Option String) (sku : Py) :
    (dmartSkuStep pn url sku).isSome = dmartIncludable pn sku := by
  cases sku with
  | dict d =>
    rw [dmartSkuStep_dict]
    by_cases h1 : pyEq (dictGetD d "buyable" Py.none) (Py.str "true") = true <;>
    by_cases h2 : pyEq (dictGetD d "invType" Py.none) (Py.str "OOS") = true <;>
    by_cases h3 : pyTruthy pn = true <;>
    by_cases h4 : pyTruthy (dictGetD d "priceMRP" Py.none) = true <;>
    by_cases h5 : pyTruthy (dictGetD d "priceSALE" Py.none) = true <;>
    cases hm : pyFloat (dictGetD d "priceMRP" Py.none) <;>
    cases hs : pyFloat (dictGetD d "priceSALE" Py.none) <;>
    simp_all [dmartIncludable, exceptToBool]
  | none => simp [dmartSkuStep, dmartSkuBody, pyGet, dmartIncludable, Bind.bind, Except.bind]
  | bool b => simp [dmartSkuStep, dmartSkuBody, pyGet, dmartIncludable, Bind.bind, Except.bind]
  | int n => simp [dmartSkuStep, dmartSkuBody, pyGet, dmartIncludable, Bind.bind, Except.bind]
  | float q => simp [dmartSkuStep, dmartSkuBody, pyGet, dmartIncludable, Bind.bind, Except.bind]
  | str s => simp [dmartSkuStep, dmartSkuBody, pyGet, dmartIncludable, Bind.bind, Except.bind]
  | list l => simp [dmartSkuStep, dmartSkuBody, pyGet, dmartIncludable, Bind.bind, Except.bind]

/-- Helper: the DMart search on a response with a single parent record
processes every SKU independently (skipped SKUs do not abort siblings). -/
lemma dmart_single_parent (pn tu : Py) (skus : List Py) :
    search_dmart_products "500032" (Upstream.ok (Py.dict
      [("products", Py.list [Py.dict
        [("name", pn), ("targetUrl", tu), ("sKUs", Py.list skus)]])]))
    = skus.filterMap (dmartSkuStep pn
        (if pyTruthy tu then some (DMART_BASE_URL ++ pyStr tu)
         else Option.none)) := by
  simp [search_dmart_products, get_dmart_store_id, pyGetD, dictGetD, pyIter,
    dmartLoop, dmartParent, pyGet, Bind.bind, Except.bind]

/-- C7 is false as stated: on `c7resp` the claim's inclusion conditions hold
(buyable, in stock, named parent, both prices present and parseable), yet
the adapter returns no product. -/
theorem claim_C7_counterexample :
    search_dmart_products "500032" (Upstream.ok c7resp) = [] ∧
    dictGetD [("buyable", Py.str "true"), ("invType", Py.str "IN"),
      ("priceMRP", Py.int 0), ("priceSALE", Py.str "10.5")] "buyable" Py.none
      = Py.str "true" ∧
    dictGetD [("buyable", Py.str "true"), ("invType", Py.str "IN"),
      ("priceMRP", Py.int 0), ("priceSALE", Py.str "10.5")] "invType" Py.none
      = Py.str "IN" ∧
    dictGetD [("buyable", Py.str "true"), ("invType", Py.str "IN"),
      ("priceMRP", Py.int 0), ("priceSALE", Py.str "10.5")] "priceMRP" Py.none
      = Py.int 0 ∧
    pyFloat (Py.int 0) = Except.ok 0 ∧
    dictGetD [("buyable", Py.str "true"), ("invType", Py.str "IN"),
      ("priceMRP", Py.int 0), ("priceSALE", Py.str "10.5")] "priceSALE" Py.none
      = Py.str "10.5" ∧
    exceptToBool (pyFloat (Py.str "10.5")) = true :=
  ⟨rfl, rfl, rfl, rfl, rfl, rfl, rfl⟩

/-- C7 amended: a DMart SKU is included iff it is marked buyable (exact
string `"true"`), its inventory status is not `"OOS"`, its parent has a
name, and both price fields are present, truthy (so nonzero and nonempty),
and numerically parseable; and SKUs of one parent are processed
independently, so an unparsable-price SKU is skipped without aborting its
sibling SKUs. -/
theorem claim_C7_amended (pn tu : Py) (url : Option String) (sku : Py)
    (skus : List Py) :
    (dmartSkuStep pn url sku).isSome = dmartIncludable pn sku ∧
    search_dmart_products "500032" (Upstream.ok (Py.dict
      [("products", Py.list [Py.dict
        [("name", pn), ("targetUrl", tu), ("sKUs", Py.list skus)]])]))
      = skus.filterMap (dmartSkuStep pn
          (if pyTruthy tu then some (DMART_BASE_URL ++ pyStr tu)
           else Option.none)) :=
  ⟨dmartSkuStep_isSome pn url sku, dmart_single_parent pn tu skus⟩

/-- Helper: an unavailable record leaves the accumulator unchanged or
raises. -/
lemma priceFromInfo_unavailable (v : Py) (acc : PriceAcc)
    (h : recordAvailable v = false) :
    priceFromInfo v acc = Except.ok acc ∨ priceFromInfo v acc = Except.error () := by
  cases ht : pyTruthy v
  · left
    simp [priceFromInfo, ht]
  · cases v with
    | dict pd =>
      left
      have hav : pyTruthy (dictGetD pd "available" Py.none) = false := by
        simp [recordAvailable, ht] at h
        exact h
      simp [priceFromInfo, ht, pyGet, hav, Bind.bind, Except.bind]
    | none => simp [pyTruthy] at ht
    | bool b => right; simp_all [priceFromInfo, pyGet, Bind.bind, Except.bind]
    | int n => right; simp_all [priceFromInfo, pyGet, Bind.bind, Except.bind]
    | float q => right; simp_all [priceFromInfo, pyGet, Bind.bind, Except.bind]
    | str s => right; simp_all [priceFromInfo, pyGet, Bind.bind, Except.bind]
    | list l => right; simp_all [priceFromInfo, pyGet, Bind.bind, Except.bind]

/-- Helper: when no record of the price map is available, the primary loop
returns the accumulator unchanged or raises. -/
lemma storeLoop_unavailable (bb : List (String × Py))
    (h : ∀ kv ∈ bb, recordAvailable kv.2 = false) :
    ∀ (codes : List Py) (acc : PriceAcc),
      storeLoop (Py.dict bb) codes acc = Except.ok acc ∨
      storeLoop (Py.dict bb) codes acc = Except.error () := by
  intro codes
  induction codes with
  | nil => intro acc; left; rfl
  | cons c rest ih =>
    intro acc
    unfold storeLoop
    simp only [pyContainsPy, Bind.bind, Except.bind]
    by_cases hb : (bb.any fun kv => pyEq c (Py.str kv.1)) = true
    · simp only [hb, Bool.not_true, if_false, Bool.false_eq_true, if_neg,
        Bool.not_eq_true]
      cases hfind : bb.find? (fun kv => pyEq c (Py.str kv.1)) with
      | none =>
        rcases List.any_eq_true.mp hb with ⟨kv, hkv, hp⟩
        have := List.find?_eq_none.mp hfind kv hkv
        simp [hp] at this
      | some kv =>
        have hmem : kv ∈ bb := List.mem_of_find?_eq_some hfind
        simp only [pyIndexPy, hfind, Except.bind]
        rcases priceFromInfo_unavailable kv.2 acc (h kv hmem) with hpi | hpi
        · rw [hpi]
          simp only [Except.bind]
          cases hfp : acc.found_price
          · simp only [hfp, if_neg, Bool.false_eq_true]
            exact ih acc
          · simp [hfp]
        · rw [hpi]
          right
          rfl
    · simp only [Bool.not_eq_true] at hb
      simp only [hb, Bool.not_false, if_true]
      exact ih acc

/-- Helper: same for the fallback loop over the raw entries. -/
lemma fallbackLoop_unavailable (entries : List (String × Py))
    (h : ∀ kv ∈ entries, recordAvailable kv.2 = false) :
    ∀ acc : PriceAcc,
      fallbackLoop entries acc = Except.ok acc ∨
      fallbackLoop entries acc = Except.error () := by
  induction entries with
  | nil => intro acc; left; rfl
  | cons kv rest ih =>
    intro acc
    unfold fallbackLoop
    simp only [Bind.bind, Except.bind]
    rcases priceFromInfo_unavailable kv.2 acc
      (h kv (List.mem_cons_self _ _)) with hpi | hpi
    · rw [hpi]
      simp only [Except.bind]
      cases hfp : acc.found_price
      · simp only [hfp, if_neg, Bool.false_eq_true]
        exact ih (fun kv2 h2 => h kv2 (List.mem_cons_of_mem _ h2)) acc
      · simp [hfp]
    · rw [hpi]
      right
      rfl

/-- C3 is false as stated: a hit with a display name but no available price
record is not emitted with a null selling price — the two-phase search
returns no product at all for it. -/
theorem claim_C3_counterexample :
    search_jiomart_products c3map c3alg = ([], true) ∧
    pyGet c3hit "display_name" = Except.ok (Py.str "X") ∧
    pyGet c3hit "buybox_mrp" = Except.ok (Py.dict []) :=
  ⟨rfl, rfl, rfl⟩

/-- C3 amended: a hit whose display name is absent (or empty) is skipped,
and a hit that has a display name but no price record with a truthy
`available` flag is also skipped — not emitted with a null selling price. -/
theorem claim_C3_amended (scs : List Py) (he : List (String × Py)) :
    (pyTruthy (dictGetD he "display_name" Py.none) = false →
      jiomartHitStep scs (Py.dict he) = Option.none) ∧
    (∀ bb : List (String × Py),
      dictGetD he "buybox_mrp" (Py.dict []) = Py.dict bb →
      (∀ kv ∈ bb, recordAvailable kv.2 = false) →
      jiomartHitStep scs (Py.dict he) = Option.none) := by
  constructor
  · intro hname
    unfold jiomartHitStep jiomartHitBody
    simp only [pyGet, pyGetD, Bind.bind, Except.bind]
    cases hsl : storeLoop (dictGetD he "buybox_mrp" (Py.dict [])) scs
        PriceAcc.init with
    | error e => simp [hsl]
    | ok acc1 =>
      simp only [hsl]
      by_cases hf1 : acc1.found_price = true
      · simp [Bind.bind, Except.bind, hf1, hname]
      · by_cases hf2 : pyTruthy (dictGetD he "buybox_mrp" (Py.dict [])) = true
        · cases hbb : dictGetD he "buybox_mrp" (Py.dict []) with
          | dict entries =>
            rw [hbb] at hf2
            cases hfl : fallbackLoop entries acc1 with
            | error e =>
              simp [Bind.bind, Except.bind, hf1, hf2, hbb, hfl, hname]
            | ok acc =>
              simp [Bind.bind, Except.bind, hf1, hf2, hbb, hfl, hname]
          | none => rw [hbb] at hf2; simp [pyTruthy] at hf2
          | bool b =>
            rw [hbb] at hf2
            simp [Bind.bind, Except.bind, hf1, hf2, hbb, hname]
          | int n =>
            rw [hbb] at hf2
            simp [Bind.bind, Except.bind, hf1, hf2, hbb, hname]
          | float q =>
            rw [hbb] at hf2
            simp [Bind.bind, Except.bind, hf1, hf2, hbb, hname]
          | str s =>
            rw [hbb] at hf2
            simp [Bind.bind, Except.bind, hf1, hf2, hbb, hname]
          | list l =>
            rw [hbb] at hf2
            simp [Bind.bind, Except.bind, hf1, hf2, hbb, hname]
        · simp [Bind.bind, Except.bind, hf1, hf2, hname]
  · intro bb hbb hunav
    unfold jiomartHitStep jiomartHitBody
    simp only [pyGet, pyGetD, Bind.bind, Except.bind, hbb]
    rcases storeLoop_unavailable bb hunav scs PriceAcc.init with hsl | hsl <;>
      simp only [hsl]
    · by_cases hbb2 : pyTruthy (Py.dict bb) = true
      · rcases fallbackLoop_unavailable bb hunav PriceAcc.init with hfl | hfl <;>
          simp only [PriceAcc.init] at hfl ⊢ <;>
          simp [Bind.bind, Except.bind, hbb2, hfl]
      · simp [Bind.bind, Except.bind, hbb2, PriceAcc.init]

/-- Witness for C3's amended claim: the counterexample hit (named, empty
price map) is skipped. -/
theorem claim_C3_witness :
    jiomartHitStep [Py.str "S1"]
      (Py.dict [("display_name", Py.str "X"), ("buybox_mrp", Py.dict [])])
      = Option.none :=
  (claim_C3_amended [Py.str "S1"]
    [("display_name", Py.str "X"), ("buybox_mrp", Py.dict [])]).2
    [] rfl (by simp)

/-- Helper: any product the DMart per-SKU step emits carries the parent's
name, which is truthy. -/
lemma dmartSkuStep_some_name (pn : Py) (url : Option String) (sku p : Py)
    (h : dmartSkuStep pn url sku = some p) :
    pyGet p "name" = Except.ok pn ∧ pyTruthy pn = true := by
  cases sku with
  | dict d =>
    rw [dmartSkuStep_dict] at h
    by_cases hc : pyEq (dictGetD d "buyable" Py.none) (Py.str "true") = true
        ∧ pyEq (dictGetD d "invType" Py.none) (Py.str "OOS") = false
        ∧ pyTruthy pn = true
        ∧ pyTruthy (dictGetD d "priceMRP" Py.none) = true
        ∧ pyTruthy (dictGetD d "priceSALE" Py.none) = true
    · rw [if_pos hc] at h
      cases hm : pyFloat (dictGetD d "priceMRP" Py.none) with
      | error e => rw [hm] at h; simp at h
      | ok m =>
        cases hs : pyFloat (dictGetD d "priceSALE" Py.none) with
        | error e => rw [hm, hs] at h; simp at h
        | ok s =>
          rw [hm, hs] at h
          simp only [Option.some.injEq] at h
          subst h
          exact ⟨rfl, hc.2.2.1⟩
    · rw [if_neg hc] at h
      simp at h
  | none => simp [dmartSkuStep, dmartSkuBody, pyGet, Bind.bind, Except.bind] at h
  | bool b => simp [dmartSkuStep, dmartSkuBody, pyGet, Bind.bind, Except.bind] at h
  | int n => simp [dmartSkuStep, dmartSkuBody, pyGet, Bind.bind, Except.bind] at h
  | float q => simp [dmartSkuStep, dmartSkuBody, pyGet, Bind.bind, Except.bind] at h
  | str s => simp [dmartSkuStep, dmartSkuBody, pyGet, Bind.bind, Except.bind] at h
  | list l => simp [dmartSkuStep, dmartSkuBody, pyGet, Bind.bind, Except.bind] at h

/-- Helper: any product the JioMart per-hit step emits carries a truthy
name (the hit's display name). -/
lemma jiomartHitStep_some_name (scs : List Py) (hit p : Py)
    (h : jiomartHitStep scs hit = some p) :
    ∃ n, pyGet p "name" = Except.ok n ∧ pyTruthy n = true := by
  cases hit with
  | dict he =>
    unfold jiomartHitStep jiomartHitBody at h
    simp only [pyGet, pyGetD, Bind.bind, Except.bind] at h
    cases hsl : storeLoop (dictGetD he "buybox_mrp" (Py.dict [])) scs
        PriceAcc.init with
    | error e => rw [hsl] at h; simp at h
    | ok acc1 =>
      rw [hsl] at h
      simp only [Except.bind] at h
      by_cases hf1 : acc1.found_price = true
      · have hcond : ¬((!acc1.found_price) = true
            ∧ pyTruthy (dictGetD he "buybox_mrp" (Py.dict [])) = true) := by
          simp [hf1]
        rw [if_neg hcond] at h
        try simp only [Except.bind] at h
        by_cases hc : pyTruthy (dictGetD he "display_name" Py.none) = true
            ∧ acc1.selling_price_num.isSome = true
        · rw [if_pos hc] at h
          simp only [Option.some.injEq] at h
          subst h
          exact ⟨dictGetD he "display_name" Py.none, rfl, hc.1⟩
        · rw [if_neg hc] at h
          simp at h
      · by_cases hf2 : pyTruthy (dictGetD he "buybox_mrp" (Py.dict [])) = true
        · have hcond : ((!acc1.found_price) = true
              ∧ pyTruthy (dictGetD he "buybox_mrp" (Py.dict [])) = true) := by
            simp [hf1, hf2]
          rw [if_pos hcond] at h
          cases hbb : dictGetD he "buybox_mrp" (Py.dict []) with
          | dict entries =>
            rw [hbb] at h
            simp only [] at h
            cases hfl : fallbackLoop entries acc1 with
            | error e => rw [hfl] at h; simp at h
            | ok acc =>
              rw [hfl] at h
              try simp only [Except.bind] at h
              by_cases hc : pyTruthy (dictGetD he "display_name" Py.none) = true
                  ∧ acc.selling_price_num.isSome = true
              · rw [if_pos hc] at h
                simp only [Option.some.injEq] at h
                subst h
                exact ⟨dictGetD he "display_name" Py.none, rfl, hc.1⟩
              · rw [if_neg hc] at h
                simp at h
          | none => rw [hbb] at h; simp at h
          | bool b => rw [hbb] at h; simp at h
          | int n => rw [hbb] at h; simp at h
          | float q => rw [hbb] at h; simp at h
          | str s => rw [hbb] at h; simp at h
          | list l => rw [hbb] at h; simp at h
        · have hcond : ¬((!acc1.found_price) = true
              ∧ pyTruthy (dictGetD he "buybox_mrp" (Py.dict [])) = true) := by
            simp [hf2]
          rw [if_neg hcond] at h
          try simp only [Except.bind] at h
          by_cases hc : pyTruthy (dictGetD he "display_name" Py.none) = true
              ∧ acc1.selling_price_num.isSome = true
          · rw [if_pos hc] at h
            simp only [Option.some.injEq] at h
            subst h
            exact ⟨dictGetD he "display_name" Py.none, rfl, hc.1⟩
          · rw [if_neg hc] at h
            simp at h
  | none => simp [jiomartHitStep, jiomartHitBody, pyGet, Bind.bind, Except.bind] at h
  | bool b => simp [jiomartHitStep, jiomartHitBody, pyGet, Bind.bind, Except.bind] at h
  | int n => simp [jiomartHitStep, jiomartHitBody, pyGet, Bind.bind, Except.bind] at h
  | float q => simp [jiomartHitStep, jiomartHitBody, pyGet, Bind.bind, Except.bind] at h
  | str s => simp [jiomartHitStep, jiomartHitBody, pyGet, Bind.bind, Except.bind] at h
  | list l => simp [jiomartHitStep, jiomartHitBody, pyGet, Bind.bind, Except.bind] at h

/-- C8 counterexample: the proxy (Instamart) adapter passes upstream
records through unmodified apart from price coercion — a record with no
name field at all is emitted (its name lookup yields `None`). -/
theorem claim_C8_counterexample :
    search_instamart_products (some (Py.dict
      [("instamart_products", Py.list [Py.dict []])]))
      = Except.ok [Py.dict [("mrp", Py.none), ("selling_price", Py.none)]] ∧
    pyGet (Py.dict [("mrp", Py.none), ("selling_price", Py.none)]) "name"
      = Except.ok Py.none :=
  ⟨rfl, rfl⟩

/-- C8 amended: the DMart and JioMart adapters emit only products with a
truthy name; the proxy adapters return the upstream array's records
unmodified apart from the in-place price coercion, so a nameless upstream
record is emitted as-is. -/
theorem claim_C8_amended :
    (∀ (pn : Py) (url : Option String) (sku p : Py),
      dmartSkuStep pn url sku = some p →
      pyGet p "name" = Except.ok pn ∧ pyTruthy pn = true) ∧
    (∀ (scs : List Py) (hit p : Py),
      jiomartHitStep scs hit = some p →
      ∃ n, pyGet p "name" = Except.ok n ∧ pyTruthy n = true) ∧
    (∀ (key : String) (items l : List Py),
      items.mapM coerceItem = Except.ok l →
      search_9minutes_backend key (some (Py.dict [(key, Py.list items)]))
        = Except.ok l) := by
  refine ⟨dmartSkuStep_some_name, jiomartHitStep_some_name, ?_⟩
  intro key items l hm
  simpa [search_9minutes_backend, pyGet, dictGetD, pyTruthy, Bind.bind,
    Except.bind] using hm

/-- Witness for C8's amended claim: a concrete nameless proxy record passes
through the Instamart adapter unmodified apart from price coercion. -/
theorem claim_C8_witness :
    search_9minutes_backend "instamart_products"
      (some (Py.dict [("instamart_products", Py.list [Py.dict []])]))
      = Except.ok [Py.dict [("mrp", Py.none), ("selling_price", Py.none)]] :=
  claim_C8_amended.2.2 "instamart_products" [Py.dict []]
    [Py.dict [("mrp", Py.none), ("selling_price", Py.none)]] rfl

/-- Helper: one failing coercion makes the whole in-place coercion loop
raise. -/
lemma mapMloop_coerceItem_error (items : List Py) :
    ∀ acc : List Py, (∃ it ∈ items, coerceItem it = Except.error ()) →
      List.mapM.loop coerceItem items acc = Except.error () := by
  induction items with
  | nil => intro acc hx; simp at hx
  | cons y ys ih =>
    intro acc hx
    rcases hx with ⟨x, hmem, hxe⟩
    rcases List.mem_cons.mp hmem with rfl | hmem2
    · simp [List.mapM.loop, hxe, Bind.bind, Except.bind]
    · cases hy : coerceItem y with
      | error e => simp [List.mapM.loop, hy, Bind.bind, Except.bind]
      | ok a =>
        simp only [List.mapM.loop, hy, Bind.bind, Except.bind]
        exact ih _ ⟨x, hmem2, hxe⟩

/-- Helper: one failing coercion makes the whole coercion loop raise. -/
lemma mapM_coerceItem_error (items : List Py)
    (hx : ∃ it ∈ items, coerceItem it = Except.error ()) :
    items.mapM coerceItem = Except.error () :=
  mapMloop_coerceItem_error items [] hx

/-- C2 counterexample: the Instamart adapter's price re-coercion runs
outside any `try`, so one item with an unparsable `mrp` raises out of the
adapter instead of being skipped. -/
theorem claim_C2_counterexample :
    search_instamart_products (some (Py.dict
      [("instamart_products", Py.list [Py.dict [("mrp", Py.str "abc")]])]))
      = Except.error () ∧
    pyFloat (Py.str "abc") = Except.error () :=
  ⟨rfl, rfl⟩

/-- C2 amended: the DMart and JioMart adapters never throw — request-level
failures yield the empty sequence and items are processed independently, a
failing item being skipped while iteration continues; the proxy adapters
return the empty sequence on request-level failures, but a per-item numeric
coercion failure raises out of the adapter (it is caught only at the
orchestrator boundary). -/
theorem claim_C2_amended :
    (∀ pincode, search_dmart_products pincode Upstream.netFail = [] ∧
      search_dmart_products pincode Upstream.badJson = []) ∧
    (∀ (pn tu : Py) (skus : List Py),
      search_dmart_products "500032" (Upstream.ok (Py.dict
        [("products", Py.list [Py.dict
          [("name", pn), ("targetUrl", tu), ("sKUs", Py.list skus)]])]))
        = skus.filterMap (dmartSkuStep pn
            (if pyTruthy tu then some (DMART_BASE_URL ++ pyStr tu)
             else Option.none))) ∧
    (∀ (scs hits : List Py),
      jiomartAlgolia scs (Upstream.ok (Py.dict
        [("results", Py.list [Py.dict [("hits", Py.list hits)]])]))
        = hits.filterMap (jiomartHitStep scs)) ∧
    (∀ scs : List Py, jiomartAlgolia scs Upstream.netFail = [] ∧
      jiomartAlgolia scs Upstream.badJson = []) ∧
    search_instamart_products Option.none = Except.ok [] ∧
    (∀ (key : String) (items : List Py),
      (∃ it ∈ items, coerceItem it = Except.error ()) →
      search_9minutes_backend key (some (Py.dict [(key, Py.list items)]))
        = Except.error ()) := by
  refine ⟨?_, dmart_single_parent, fun scs hits => rfl,
    fun scs => ⟨rfl, rfl⟩, rfl, ?_⟩
  · intro pincode
    cases h : get_dmart_store_id pincode <;>
      exact ⟨by simp [search_dmart_products, h], by simp [search_dmart_products, h]⟩
  · intro key items hx
    simpa [search_9minutes_backend, pyGet, dictGetD, pyTruthy, Bind.bind,
      Except.bind] using mapM_coerceItem_error items hx

/-- Witness for C2's amended claim: a concrete item with unparsable `mrp`
makes the shared proxy-adapter body raise. -/
theorem claim_C2_witness :
    search_9minutes_backend "zepto_products"
      (some (Py.dict [("zepto_products", Py.list [Py.dict [("mrp", Py.str "abc")]])]))
      = Except.error () :=
  claim_C2_amended.2.2.2.2.2 "zepto_products" [Py.dict [("mrp", Py.str "abc")]]
    ⟨Py.dict [("mrp", Py.str "abc")], by simp, rfl⟩

/-- C9: a DMart SKU counts as buyable only when its `buyable` field equals
(by Python `==`) the exact string `"true"`; any other value — the JSON
boolean `true`, the string `"True"`, anything — excludes the SKU. -/
theorem claim_C9_buyable_exact_string (pname : Py) (url : Option String)
    (d : List (String × Py)) (b : Py)
    (hb : dictGetD d "buyable" Py.none = b)
    (hne : pyEq b (Py.str "true") = false) :
    dmartSkuStep pname url (Py.dict d) = Option.none := by
  unfold dmartSkuStep dmartSkuBody
  simp [pyGet, hb, hne, Bind.bind, Except.bind]

/-- Witness for C9: the JSON boolean `true` and the string `"True"` are both
rejected even with every other field valid; the exact string `"true"` is
accepted. -/
theorem claim_C9_witness :
    dmartSkuStep (Py.str "X") (some "u")
      (Py.dict [("buyable", Py.bool true), ("invType", Py.str "IN"),
        ("priceMRP", Py.str "5"), ("priceSALE", Py.str "4")]) = Option.none ∧
    dmartSkuStep (Py.str "X") (some "u")
      (Py.dict [("buyable", Py.str "True"), ("invType", Py.str "IN"),
        ("priceMRP", Py.str "5"), ("priceSALE", Py.str "4")]) = Option.none ∧
    (dmartSkuStep (Py.str "X") (some "u")
      (Py.dict [("buyable", Py.str "true"), ("invType", Py.str "IN"),
        ("priceMRP", Py.str "5"), ("priceSALE", Py.str "4")])).isSome = true :=
  ⟨claim_C9_buyable_exact_string (Py.str "X") (some "u") _ (Py.bool true) rfl rfl,
   claim_C9_buyable_exact_string (Py.str "X") (some "u") _ (Py.str "True") rfl rfl,
   rfl⟩
